import Mathlib

/-!
Verification of the `dec754` decimal32 decoder and comparator.

Shallow embedding of `src/lib.rs` (the `d32` type: an IEEE 754-2008
decimal32 interchange pattern, binary-integer-decimal encoding) together
with theorems checking the repository's specification against it.

Modelling conventions:
* The Rust `u32` payload of `struct d32(u32)` is modelled as a `Nat`
  field `bits`; every operation of the source reads it only through
  masks (`&&&`), so the embedding is faithful on all 32-bit patterns.
* Rust `u32` subtraction `a - b` overflows when `a < b`.  With the
  release profile (`overflow-checks = off`) it wraps modulo `2^32`;
  that wrapping semantics is modelled by `wsub` and used in
  `d32.total_order`.  With the debug profile the same subtraction
  panics; `d32.total_order_checked` models that profile, returning
  `none` exactly where the debug build panics (`csub`).  The `u64`
  multiplications and `10u64.pow` calls of the source never overflow in
  any position whose value reaches the result (each is short-circuited
  behind a guard that bounds the exponent difference by 6, and
  significands are below `2^24`), so they are modelled by exact `Nat`
  arithmetic.
-/

namespace Dec754

/-- Wrapping `u32` subtraction (Rust release profile). For `a, b < 2^32`
this is the two's-complement wrap of `a - b`. -/
def wsub (a b : Nat) : Nat :=
  (a + 2 ^ 32 - b) % 2 ^ 32

/-- Checked `u32` subtraction (Rust debug profile): `none` models the
overflow panic. -/
def csub (a b : Nat) : Option Nat :=
  if b ≤ a then some (a - b) else none

/-- Short-circuit `||` over possibly-panicking operands, mirroring
Rust's left-to-right evaluation. -/
def orElseB (a b : Option Bool) : Option Bool :=
  match a with
  | none => none
  | some true => some true
  | some false => b

/-- Short-circuit `&&` over possibly-panicking operands. -/
def andThenB (a b : Option Bool) : Option Bool :=
  match a with
  | none => none
  | some false => some false
  | some true => b

/-- `pub struct d32(u32)` from `src/lib.rs`. -/
structure d32 where
  bits : Nat
  deriving DecidableEq

/-- The ten-variant classification enum `Class` from `src/lib.rs`. -/
inductive Class where
  | QuietNaN
  | SignalingNaN
  | NegativeInf
  | NegativeNormal
  | NegativeSubnormal
  | NegativeZero
  | PositiveZero
  | PositiveSubnormal
  | PositiveNormal
  | PositiveInf
  deriving DecidableEq

namespace d32

/-- `is_nan`: combination field's top five bits all set. -/
def is_nan (x : d32) : Bool :=
  x.bits &&& 0x7c000000 == 0x7c000000

/-- `is_signaling`: top six bits below the sign all set. -/
def is_signaling (x : d32) : Bool :=
  x.bits &&& 0x7e000000 == 0x7e000000

/-- `is_infinite`: not NaN, and the four infinity marker bits set. -/
def is_infinite (x : d32) : Bool :=
  !x.is_nan && (x.bits &&& 0x78000000 == 0x78000000)

/-- `is_finite`: neither infinite nor NaN. -/
def is_finite (x : d32) : Bool :=
  !(x.is_infinite || x.is_nan)

/-- `exponent_form_one`: finite and the top two combination bits are
not both 1 (Form A). -/
def exponent_form_one (x : d32) : Bool :=
  x.is_finite && !(x.bits &&& 0x60000000 == 0x60000000)

/-- `significand`: low 23 bits for Form A, otherwise low 21 bits with
the implicit `100` prefix. -/
def significand (x : d32) : Nat :=
  if x.exponent_form_one then
    x.bits &&& 0x007fffff
  else
    (x.bits &&& 0x001fffff) ||| 0x00800000

/-- `exponent`: 0 for non-finite patterns, else the raw 8-bit field
extracted per form. -/
def exponent (x : d32) : Nat :=
  if !x.is_finite then
    0
  else if x.exponent_form_one then
    (x.bits &&& 0x7f800000) >>> 23
  else
    (x.bits &&& 0x1fe00000) >>> 21

/-- `is_quiet`: NaN and not signaling. -/
def is_quiet (x : d32) : Bool :=
  x.is_nan && !x.is_signaling

/-- `quantum`: canonicalizing projection from `src/lib.rs`. -/
def quantum (x : d32) : d32 :=
  if x.is_signaling then
    ⟨x.bits &&& 0x7e07ffff⟩
  else if x.is_nan then
    ⟨x.bits &&& 0x7c07ffff⟩
  else if x.is_infinite then
    ⟨0x78000000⟩
  else if x.exponent_form_one then
    ⟨x.bits &&& 0x7f800001⟩
  else
    ⟨x.bits &&& 0x7fe00001⟩

/-- `negate`: flip the sign bit. -/
def negate (x : d32) : d32 :=
  ⟨x.bits ^^^ 0x80000000⟩

/-- `abs`: clear the sign bit. -/
def abs (x : d32) : d32 :=
  ⟨x.bits &&& 0x7fffffff⟩

/-- `copy_sign`: magnitude of `x` with the sign of `y`. -/
def copy_sign (x y : d32) : d32 :=
  ⟨x.abs.bits ||| (y.bits &&& 0x80000000)⟩

/-- `encode_binary`: identity passthrough. -/
def encode_binary (x : d32) : d32 :=
  ⟨x.bits⟩

/-- `decode_binary`: identity passthrough. -/
def decode_binary (x : d32) : d32 :=
  ⟨x.bits⟩

/-- `is_sign_minus`: sign bit set. -/
def is_sign_minus (x : d32) : Bool :=
  x.bits &&& 0x80000000 == 0x80000000

/-- `is_canonical` from `src/lib.rs`. -/
def is_canonical (x : d32) : Bool :=
  (x.is_nan && (x.bits &&& 0x7df00000 == 0x7c000000))
    || (x.is_infinite && (x.bits &&& 0x7fffffff == 0x78000000))
    || (x.is_finite && decide (x.significand ≤ 9999999))

/-- `is_zero`: finite with zero significand, or finite non-canonical. -/
def is_zero (x : d32) : Bool :=
  x.is_finite && (x.significand == 0 || !x.is_canonical)

/-- `is_subnormal` from `src/lib.rs`; the `10u64.pow` is only evaluated
under the `exponent < 6` guard, so exact `Nat` arithmetic is faithful. -/
def is_subnormal (x : d32) : Bool :=
  x.is_finite && !x.is_zero && decide (x.exponent < 6)
    && decide (x.significand * 10 ^ x.exponent < 1000000)

/-- `is_normal`: finite, non-zero, not subnormal. -/
def is_normal (x : d32) : Bool :=
  x.is_finite && !x.is_zero && !x.is_subnormal

/-- `class` from `src/lib.rs`, with its exact branch precedence. -/
def «class» (x : d32) : Class :=
  if x.is_signaling then
    Class.SignalingNaN
  else if x.is_quiet then
    Class.QuietNaN
  else if x.is_sign_minus then
    if x.is_infinite then
      Class.NegativeInf
    else if x.is_normal then
      Class.NegativeNormal
    else if x.is_subnormal then
      Class.NegativeSubnormal
    else
      Class.NegativeZero
  else if x.is_infinite then
    Class.PositiveInf
  else if x.is_normal then
    Class.PositiveNormal
  else if x.is_subnormal then
    Class.PositiveSubnormal
  else
    Class.PositiveZero

/-- `radix`: constant 10. -/
def radix (_ : d32) : Nat :=
  10

/-- `total_order` from `src/lib.rs`, release-profile semantics: the two
unguarded `u32` subtractions `self.exponent() - y.exponent()` (negative
arms) and `y.exponent() - self.exponent()` (positive arms) wrap modulo
`2^32` (`wsub`).  Wherever a `10u64.pow`/multiplication result can reach
the value of the expression, the exponent difference is at most 6 and the
product is below `2^44`, so exact `Nat` arithmetic is faithful there. -/
def total_order (x y : d32) : Bool :=
  match x.«class», y.«class» with
  | Class.QuietNaN, Class.QuietNaN =>
      (x.is_sign_minus && !y.is_sign_minus) || (x.significand == y.significand)
  | Class.SignalingNaN, Class.SignalingNaN =>
      x.is_sign_minus && !y.is_sign_minus || (x.significand == y.significand)
  | Class.QuietNaN, Class.SignalingNaN => x.is_sign_minus
  | Class.SignalingNaN, Class.QuietNaN => !y.is_sign_minus
  | Class.QuietNaN, _ => x.is_sign_minus
  | Class.SignalingNaN, _ => x.is_sign_minus
  | _, Class.QuietNaN => !y.is_sign_minus
  | _, Class.SignalingNaN => !y.is_sign_minus
  | Class.NegativeInf, Class.NegativeInf => true
  | Class.NegativeInf, _ => true
  | _, Class.NegativeInf => false
  | Class.PositiveInf, Class.PositiveInf => true
  | Class.PositiveInf, _ => false
  | _, Class.PositiveInf => true
  | Class.NegativeNormal, Class.NegativeNormal =>
      (decide (x.significand > y.significand) && decide (x.exponent ≥ y.exponent))
        || decide (wsub x.exponent y.exponent > 6)
        || (decide (x.exponent ≥ y.exponent)
            && decide (x.significand * 10 ^ wsub x.exponent y.exponent ≥ y.significand))
        || (decide (x.exponent ≤ y.exponent)
            && decide (x.significand > y.significand * 10 ^ wsub y.exponent x.exponent))
  | Class.NegativeNormal, _ => true
  | _, Class.NegativeNormal => false
  | Class.NegativeSubnormal, Class.NegativeSubnormal =>
      (decide (x.significand > y.significand) && decide (x.exponent ≥ y.exponent))
        || decide (wsub x.exponent y.exponent > 6)
        || (decide (x.exponent ≥ y.exponent)
            && decide (x.significand * 10 ^ wsub x.exponent y.exponent ≥ y.significand))
        || (decide (x.exponent < y.exponent)
            && decide (x.significand > y.significand * 10 ^ wsub y.exponent x.exponent))
  | Class.NegativeSubnormal, _ => true
  | _, Class.NegativeSubnormal => false
  | Class.NegativeZero, Class.NegativeZero => decide (x.exponent ≥ y.exponent)
  | Class.NegativeZero, _ => true
  | _, Class.NegativeZero => false
  | Class.PositiveZero, Class.PositiveZero => decide (x.exponent ≤ y.exponent)
  | Class.PositiveZero, _ => true
  | _, Class.PositiveZero => false
  | Class.PositiveSubnormal, Class.PositiveSubnormal =>
      (decide (x.significand < y.significand) && decide (x.exponent ≤ y.exponent))
        || decide (wsub y.exponent x.exponent > 6)
        || (decide (x.exponent ≤ y.exponent)
            && decide (x.significand ≤ y.significand * 10 ^ wsub y.exponent x.exponent))
        || (decide (x.exponent > y.exponent)
            && decide (x.significand * 10 ^ wsub x.exponent y.exponent < y.significand))
  | Class.PositiveSubnormal, _ => true
  | _, Class.PositiveSubnormal => false
  | Class.PositiveNormal, Class.PositiveNormal =>
      (decide (x.significand < y.significand) && decide (x.exponent ≤ y.exponent))
        || decide (wsub y.exponent x.exponent > 6)
        || (decide (x.exponent ≤ y.exponent)
            && decide (x.significand ≤ y.significand * 10 ^ wsub y.exponent x.exponent))
        || (decide (x.exponent > y.exponent)
            && decide (x.significand * 10 ^ wsub x.exponent y.exponent < y.significand))

/-- `total_order` under the debug profile: identical to `total_order`
except that each `u32` exponent subtraction is checked (`csub`), and the
short-circuit structure of Rust's `||`/`&&` is kept (`orElseB` /
`andThenB`), so the result is `none` exactly on the inputs where a debug
build panics with an overflow.  The `10u64.pow` calls cannot overflow on
any path that reaches them: they sit behind guards that either bound the
exponent difference by 6 or have already panicked. -/
def total_order_checked (x y : d32) : Option Bool :=
  match x.«class», y.«class» with
  | Class.QuietNaN, Class.QuietNaN =>
      some ((x.is_sign_minus && !y.is_sign_minus) || (x.significand == y.significand))
  | Class.SignalingNaN, Class.SignalingNaN =>
      some (x.is_sign_minus && !y.is_sign_minus || (x.significand == y.significand))
  | Class.QuietNaN, Class.SignalingNaN => some x.is_sign_minus
  | Class.SignalingNaN, Class.QuietNaN => some (!y.is_sign_minus)
  | Class.QuietNaN, _ => some x.is_sign_minus
  | Class.SignalingNaN, _ => some x.is_sign_minus
  | _, Class.QuietNaN => some (!y.is_sign_minus)
  | _, Class.SignalingNaN => some (!y.is_sign_minus)
  | Class.NegativeInf, Class.NegativeInf => some true
  | Class.NegativeInf, _ => some true
  | _, Class.NegativeInf => some false
  | Class.PositiveInf, Class.PositiveInf => some true
  | Class.PositiveInf, _ => some false
  | _, Class.PositiveInf => some true
  | Class.NegativeNormal, Class.NegativeNormal =>
      orElseB (some (decide (x.significand > y.significand) && decide (x.exponent ≥ y.exponent)))
        (orElseB ((csub x.exponent y.exponent).map (fun d => decide (d > 6)))
          (orElseB
            (andThenB (some (decide (x.exponent ≥ y.exponent)))
              ((csub x.exponent y.exponent).map
                (fun d => decide (x.significand * 10 ^ d ≥ y.significand))))
            (andThenB (some (decide (x.exponent ≤ y.exponent)))
              ((csub y.exponent x.exponent).map
                (fun d => decide (x.significand > y.significand * 10 ^ d))))))
  | Class.NegativeNormal, _ => some true
  | _, Class.NegativeNormal => some false
  | Class.NegativeSubnormal, Class.NegativeSubnormal =>
      orElseB (some (decide (x.significand > y.significand) && decide (x.exponent ≥ y.exponent)))
        (orElseB ((csub x.exponent y.exponent).map (fun d => decide (d > 6)))
          (orElseB
            (andThenB (some (decide (x.exponent ≥ y.exponent)))
              ((csub x.exponent y.exponent).map
                (fun d => decide (x.significand * 10 ^ d ≥ y.significand))))
            (andThenB (some (decide (x.exponent < y.exponent)))
              ((csub y.exponent x.exponent).map
                (fun d => decide (x.significand > y.significand * 10 ^ d))))))
  | Class.NegativeSubnormal, _ => some true
  | _, Class.NegativeSubnormal => some false
  | Class.NegativeZero, Class.NegativeZero => some (decide (x.exponent ≥ y.exponent))
  | Class.NegativeZero, _ => some true
  | _, Class.NegativeZero => some false
  | Class.PositiveZero, Class.PositiveZero => some (decide (x.exponent ≤ y.exponent))
  | Class.PositiveZero, _ => some true
  | _, Class.PositiveZero => some false
  | Class.PositiveSubnormal, Class.PositiveSubnormal =>
      orElseB (some (decide (x.significand < y.significand) && decide (x.exponent ≤ y.exponent)))
        (orElseB ((csub y.exponent x.exponent).map (fun d => decide (d > 6)))
          (orElseB
            (andThenB (some (decide (x.exponent ≤ y.exponent)))
              ((csub y.exponent x.exponent).map
                (fun d => decide (x.significand ≤ y.significand * 10 ^ d))))
            (andThenB (some (decide (x.exponent > y.exponent)))
              ((csub x.exponent y.exponent).map
                (fun d => decide (x.significand * 10 ^ d < y.significand))))))
  | Class.PositiveSubnormal, _ => some true
  | _, Class.PositiveSubnormal => some false
  | Class.PositiveNormal, Class.PositiveNormal =>
      orElseB (some (decide (x.significand < y.significand) && decide (x.exponent ≤ y.exponent)))
        (orElseB ((csub y.exponent x.exponent).map (fun d => decide (d > 6)))
          (orElseB
            (andThenB (some (decide (x.exponent ≤ y.exponent)))
              ((csub y.exponent x.exponent).map
                (fun d => decide (x.significand ≤ y.significand * 10 ^ d))))
            (andThenB (some (decide (x.exponent > y.exponent)))
              ((csub x.exponent y.exponent).map
                (fun d => decide (x.significand * 10 ^ d < y.significand))))))

/-- `total_order_mag`: total order on magnitudes. -/
def total_order_mag (x y : d32) : Bool :=
  x.abs.total_order y.abs

/-- `same_quantum` from `src/lib.rs`. -/
def same_quantum (x y : d32) : Bool :=
  (x.is_nan && y.is_nan)
    || (x.is_infinite && y.is_infinite)
    || (x.is_finite && y.is_finite && (x.exponent == y.exponent))

end d32

/-- Rank of a class in the fixed cross-class order stated by the spec:
NegativeInf < NegativeNormal < NegativeSubnormal < NegativeZero <
PositiveZero < PositiveSubnormal < PositiveNormal < PositiveInf.  This
definition follows the spec's words (it is the comparison target for the
cross-class claim); the NaN ranks are placeholders, unused below. -/
def rank : Class → Nat
  | Class.NegativeInf => 0
  | Class.NegativeNormal => 1
  | Class.NegativeSubnormal => 2
  | Class.NegativeZero => 3
  | Class.PositiveZero => 4
  | Class.PositiveSubnormal => 5
  | Class.PositiveNormal => 6
  | Class.PositiveInf => 7
  | Class.QuietNaN => 8
  | Class.SignalingNaN => 9

open d32

/-! ## Helper lemmas -/

/-- Masking twice absorbs: if `v &&& a = a` and `a &&& b = b` then
`v &&& b = b`. -/
theorem land_absorb {v a b : Nat} (hv : v &&& a = a) (hab : a &&& b = b) :
    v &&& b = b := by
  calc v &&& b = v &&& (a &&& b) := by rw [hab]
    _ = v &&& a &&& b := (Nat.land_assoc v a b).symm
    _ = a &&& b := by rw [hv]
    _ = b := hab

/-- Reassociate a double mask and fold the constant part. -/
theorem land_shift (v m c r : Nat) (h : m &&& c = r) :
    (v &&& m) &&& c = v &&& r := by
  rw [Nat.land_assoc, h]

/-- Signaling NaNs are NaNs: bit mask `0x7e000000` refines `0x7c000000`. -/
theorem signaling_imp_nan (v : d32) (h : v.is_signaling = true) :
    v.is_nan = true := by
  simp only [d32.is_signaling, beq_iff_eq] at h
  simp only [d32.is_nan, beq_iff_eq]
  exact land_absorb h (by decide)

/-- Contrapositive of `signaling_imp_nan`. -/
theorem not_signaling_of_not_nan (v : d32) (h : v.is_nan = false) :
    v.is_signaling = false := by
  cases hs : v.is_signaling
  · rfl
  · rw [signaling_imp_nan v hs] at h; cases h

/-- A NaN pattern classifies as one of the two NaN variants. -/
theorem class_of_nan (v : d32) (h : v.is_nan = true) :
    v.«class» = Class.QuietNaN ∨ v.«class» = Class.SignalingNaN := by
  unfold «class»
  by_cases hs : v.is_signaling
  · simp [hs]
  · simp [hs, is_quiet, h]

/-- A non-NaN pattern classifies as one of the eight ordered variants. -/
theorem class_of_not_nan (v : d32) (h : v.is_nan = false) :
    v.«class» = Class.NegativeInf ∨ v.«class» = Class.NegativeNormal ∨
    v.«class» = Class.NegativeSubnormal ∨ v.«class» = Class.NegativeZero ∨
    v.«class» = Class.PositiveZero ∨ v.«class» = Class.PositiveSubnormal ∨
    v.«class» = Class.PositiveNormal ∨ v.«class» = Class.PositiveInf := by
  have hs : v.is_signaling = false := not_signaling_of_not_nan v h
  unfold «class»
  simp only [hs, is_quiet, h, Bool.false_and, Bool.and_false, if_false]
  by_cases hm : v.is_sign_minus <;> by_cases hi : v.is_infinite <;>
    by_cases hnorm : v.is_normal <;> by_cases hsub : v.is_subnormal <;>
      simp [hm, hi, hnorm, hsub]

/-! ## Theorems about the claims -/

/-- C1: the spec claims every public operation is total and panic-free,
and in particular that the unsigned subtraction
`self.exponent() - y.exponent()` in `total_order`'s same-class arms can
never underflow.  Refuted: for the two negative normal numbers
`0x800F4240` (exponent field 0, significand 1000000) and `0x808F4240`
(exponent field 1, significand 1000000) the arm evaluates
`0u32 - 1u32`, which underflows: a debug build panics (modelled by
`total_order_checked` returning `none`), and a release build wraps the
difference to `2^32 - 1 > 6`, making `total_order` spuriously true. -/
theorem total_order_exponent_sub_underflows :
    total_order_checked ⟨0x800F4240⟩ ⟨0x808F4240⟩ = none
      ∧ total_order ⟨0x800F4240⟩ ⟨0x808F4240⟩ = true
      ∧ (⟨0x800F4240⟩ : d32).«class» = Class.NegativeNormal
      ∧ (⟨0x808F4240⟩ : d32).«class» = Class.NegativeNormal
      ∧ (⟨0x800F4240⟩ : d32).exponent < (⟨0x808F4240⟩ : d32).exponent := by
  decide

/-- C2: the spec claims `total_order` is a total order (reflexive,
antisymmetric up to the equal-NaN-payload rule, transitive, total).
Refuted: `0x7c000001` and `0x7c000002` are two positive quiet NaNs with
distinct decoded payloads, yet `total_order` returns `false` in both
directions, so neither ranks below the other — totality/antisymmetry
("exactly one of the two directions is false") fails. -/
theorem total_order_not_antisymmetric :
    (⟨0x7c000001⟩ : d32) ≠ (⟨0x7c000002⟩ : d32)
      ∧ (⟨0x7c000001⟩ : d32).«class» = Class.QuietNaN
      ∧ (⟨0x7c000002⟩ : d32).«class» = Class.QuietNaN
      ∧ (⟨0x7c000001⟩ : d32).significand ≠ (⟨0x7c000002⟩ : d32).significand
      ∧ total_order ⟨0x7c000001⟩ ⟨0x7c000002⟩ = false
      ∧ total_order ⟨0x7c000002⟩ ⟨0x7c000001⟩ = false := by
  decide

/-- C3: the spec claims same-sign same-class finite comparisons are
decided by the exact scaled-significand comparison (`s_a * 10^(e_a-e_b)`
against `s_b` when `e_a ≥ e_b`, `s_a` against `s_b * 10^(e_b-e_a)`
otherwise, direction reversed for negatives, with the `|e_a-e_b| > 6`
guard).  Refuted in the direction whose subtraction underflows: for the
positive normals `0x008F4240` (e=1, s=1000000) and `0x000F4240` (e=0,
s=1000000) the claimed rule compares `1000000 * 10^1 < 1000000`, which
is false, yet the code wraps `0u32 - 1u32` to a value `> 6` and returns
`true` (a debug build panics instead). -/
theorem total_order_wrong_direction_scaling :
    (⟨0x008F4240⟩ : d32).«class» = Class.PositiveNormal
      ∧ (⟨0x000F4240⟩ : d32).«class» = Class.PositiveNormal
      ∧ (⟨0x008F4240⟩ : d32).exponent = 1
      ∧ (⟨0x000F4240⟩ : d32).exponent = 0
      ∧ (⟨0x008F4240⟩ : d32).significand = 1000000
      ∧ (⟨0x000F4240⟩ : d32).significand = 1000000
      ∧ ¬ (1000000 * 10 ^ (1 - 0) < (1000000 : Nat))
      ∧ total_order ⟨0x008F4240⟩ ⟨0x000F4240⟩ = true
      ∧ total_order_checked ⟨0x008F4240⟩ ⟨0x000F4240⟩ = none := by
  decide

/-- C4: the spec claims `quantum` of any two finite values with the same
class and exponent field is bit-identical, the Form A significand being
forced to exactly 1.  Refuted: the mask `self.0 & 0x7f800001` keeps bit
0 of the input significand instead of setting it (the code's own comment
says "wipe out the significand, leaving 1").  `0x00000001` and
`0x00000002` are both positive subnormals with exponent field 0, yet
their quanta are `0x00000001` and `0x00000000`. -/
theorem quantum_keeps_low_significand_bit :
    (⟨0x00000001⟩ : d32).is_finite = true
      ∧ (⟨0x00000002⟩ : d32).is_finite = true
      ∧ (⟨0x00000001⟩ : d32).«class» = (⟨0x00000002⟩ : d32).«class»
      ∧ (⟨0x00000001⟩ : d32).exponent = (⟨0x00000002⟩ : d32).exponent
      ∧ (⟨0x00000001⟩ : d32).quantum = ⟨0x00000001⟩
      ∧ (⟨0x00000002⟩ : d32).quantum = ⟨0x00000000⟩
      ∧ (⟨0x00000001⟩ : d32).quantum ≠ (⟨0x00000002⟩ : d32).quantum := by
  decide

/-- C5: for every pair of non-NaN operands of distinct classes,
`total_order a b` is true exactly when `a`'s class precedes `b`'s class
in the fixed rank NegativeInf < NegativeNormal < NegativeSubnormal <
NegativeZero < PositiveZero < PositiveSubnormal < PositiveNormal <
PositiveInf; and against any non-NaN operand, a negative NaN ranks below
and a positive NaN ranks above. -/
theorem total_order_cross_class :
    (∀ a b : d32, a.is_nan = false → b.is_nan = false →
        a.«class» ≠ b.«class» →
        (a.total_order b = true ↔ rank a.«class» < rank b.«class»))
      ∧ (∀ a b : d32, a.is_nan = true → b.is_nan = false →
          a.total_order b = a.is_sign_minus
            ∧ b.total_order a = !a.is_sign_minus) := by
  constructor
  · intro a b ha hb hne
    rcases class_of_not_nan a ha with h1|h1|h1|h1|h1|h1|h1|h1 <;>
      rcases class_of_not_nan b hb with h2|h2|h2|h2|h2|h2|h2|h2 <;>
        first
          | exact absurd (h1.trans h2.symm) hne
          | (rw [h1, h2]; simp only [total_order, h1, h2]; decide)
  · intro a b ha hb
    rcases class_of_nan a ha with h1|h1 <;>
      rcases class_of_not_nan b hb with h2|h2|h2|h2|h2|h2|h2|h2 <;>
        constructor <;> simp only [total_order, h1, h2]

/-- Witness for C5: negative infinity `0xF8000000` sorts before positive
zero `0x00000000`. -/
theorem total_order_cross_class_witness :
    total_order ⟨0xF8000000⟩ ⟨0x00000000⟩ = true :=
  (total_order_cross_class.1 ⟨0xF8000000⟩ ⟨0x00000000⟩ (by decide) (by decide)
    (by decide)).mpr (by decide)

/-- C6: two NegativeZero patterns compare by `e_a >= e_b`, two
PositiveZero patterns by `e_a <= e_b`, and negative zero `0x80000000`
sorts before positive zero `0x00000000`. -/
theorem total_order_zero_by_exponent :
    (∀ a b : d32, a.«class» = Class.NegativeZero →
        b.«class» = Class.NegativeZero →
        (a.total_order b = true ↔ b.exponent ≤ a.exponent))
      ∧ (∀ a b : d32, a.«class» = Class.PositiveZero →
          b.«class» = Class.PositiveZero →
          (a.total_order b = true ↔ a.exponent ≤ b.exponent))
      ∧ total_order ⟨0x80000000⟩ ⟨0x00000000⟩ = true := by
  refine ⟨?_, ?_, by decide⟩
  · intro a b h1 h2
    simp only [total_order, h1, h2]
    simp [ge_iff_le]
  · intro a b h1 h2
    simp only [total_order, h1, h2]
    simp

/-- Witness for C6: `0x81000000` is a negative zero with exponent field
2, `0x80000000` one with exponent field 0, and the former sorts first. -/
theorem total_order_zero_by_exponent_witness :
    total_order ⟨0x81000000⟩ ⟨0x80000000⟩ = true :=
  (total_order_zero_by_exponent.1 ⟨0x81000000⟩ ⟨0x80000000⟩ (by decide)
    (by decide)).mpr (by decide)

/-- C7: every finite pattern whose decoded significand is 0, and every
finite non-canonical pattern (decoded significand above 9999999),
satisfies `is_zero` and classifies as the zero of its sign;
non-canonicality is a classification outcome, never an error (every
operation here is total over all patterns by construction). -/
theorem non_canonical_is_zero (v : d32)
    (hf : v.is_finite = true)
    (h : v.significand = 0 ∨ 9999999 < v.significand) :
    v.is_zero = true
      ∧ v.«class» = (if v.is_sign_minus then Class.NegativeZero
          else Class.PositiveZero) := by
  have hparts : ¬ (v.is_infinite = true ∨ v.is_nan = true) := by
    simpa [d32.is_finite, not_or] using hf
  push_neg at hparts
  have hi : v.is_infinite = false := by simpa using hparts.1
  have hn : v.is_nan = false := by simpa using hparts.2
  have hz : v.is_zero = true := by
    rcases h with h | h
    · simp [d32.is_zero, hf, h]
    · have hc : v.is_canonical = false := by
        simp [d32.is_canonical, hi, hn, hf]
        omega
      simp [d32.is_zero, hf, hc]
  have hs : v.is_signaling = false := not_signaling_of_not_nan v hn
  have hsub : v.is_subnormal = false := by simp [d32.is_subnormal, hz]
  have hnorm : v.is_normal = false := by simp [d32.is_normal, hz]
  refine ⟨hz, ?_⟩
  by_cases hm : v.is_sign_minus <;>
    simp [«class», is_quiet, hs, hn, hi, hm, hnorm, hsub]

/-- Witness for C7: `0x60189800` is a finite Form B pattern whose
significand decodes to 10000384 > 9999999; it is a positive zero. -/
theorem non_canonical_is_zero_witness :
    (⟨0x60189800⟩ : d32).is_zero = true
      ∧ (⟨0x60189800⟩ : d32).«class»
          = (if (⟨0x60189800⟩ : d32).is_sign_minus then Class.NegativeZero
             else Class.PositiveZero) :=
  non_canonical_is_zero ⟨0x60189800⟩ (by decide) (Or.inr (by decide))

/-- C8: every pattern is exactly one of NaN, infinite, finite, and
`class` lands in exactly the variant described by the spec's precedence
(signaling NaN, then quiet NaN, then the sign/infinite/normal/subnormal
/zero breakdown). -/
theorem class_partition (v : d32) :
    ((v.is_nan = true ∧ v.is_infinite = false ∧ v.is_finite = false)
      ∨ (v.is_nan = false ∧ v.is_infinite = true ∧ v.is_finite = false)
      ∨ (v.is_nan = false ∧ v.is_infinite = false ∧ v.is_finite = true))
    ∧ (v.«class» = Class.SignalingNaN ↔ v.is_signaling = true)
    ∧ (v.«class» = Class.QuietNaN ↔ (v.is_nan = true ∧ v.is_signaling = false))
    ∧ (v.«class» = Class.NegativeInf ↔
        (v.is_infinite = true ∧ v.is_sign_minus = true))
    ∧ (v.«class» = Class.NegativeNormal ↔
        (v.is_normal = true ∧ v.is_sign_minus = true))
    ∧ (v.«class» = Class.NegativeSubnormal ↔
        (v.is_subnormal = true ∧ v.is_sign_minus = true))
    ∧ (v.«class» = Class.NegativeZero ↔
        (v.is_zero = true ∧ v.is_sign_minus = true))
    ∧ (v.«class» = Class.PositiveInf ↔
        (v.is_infinite = true ∧ v.is_sign_minus = false))
    ∧ (v.«class» = Class.PositiveNormal ↔
        (v.is_normal = true ∧ v.is_sign_minus = false))
    ∧ (v.«class» = Class.PositiveSubnormal ↔
        (v.is_subnormal = true ∧ v.is_sign_minus = false))
    ∧ (v.«class» = Class.PositiveZero ↔
        (v.is_zero = true ∧ v.is_sign_minus = false)) := by
  cases hn : v.is_nan
  · have hs : v.is_signaling = false := not_signaling_of_not_nan v hn
    cases hi : v.is_infinite
    · have hf : v.is_finite = true := by simp [is_finite, hi, hn]
      cases hz : v.is_zero
      · cases hsub : v.is_subnormal
        · have hnorm : v.is_normal = true := by simp [is_normal, hf, hz, hsub]
          cases hm : v.is_sign_minus <;>
            simp [«class», is_quiet, hs, hn, hi, hf, hz, hsub, hnorm, hm]
        · have hnorm : v.is_normal = false := by simp [is_normal, hf, hz, hsub]
          cases hm : v.is_sign_minus <;>
            simp [«class», is_quiet, hs, hn, hi, hf, hz, hsub, hnorm, hm]
      · have hsub : v.is_subnormal = false := by simp [is_subnormal, hz]
        have hnorm : v.is_normal = false := by simp [is_normal, hz]
        cases hm : v.is_sign_minus <;>
          simp [«class», is_quiet, hs, hn, hi, hf, hz, hsub, hnorm, hm]
    · have hf : v.is_finite = false := by simp [is_finite, hi]
      have hz : v.is_zero = false := by simp [is_zero, hf]
      have hsub : v.is_subnormal = false := by simp [is_subnormal, hf]
      have hnorm : v.is_normal = false := by simp [is_normal, hf]
      cases hm : v.is_sign_minus <;>
        simp [«class», is_quiet, hs, hn, hi, hf, hz, hsub, hnorm, hm]
  · have hi : v.is_infinite = false := by simp [is_infinite, hn]
    have hf : v.is_finite = false := by simp [is_finite, hn]
    have hz : v.is_zero = false := by simp [is_zero, hf]
    have hsub : v.is_subnormal = false := by simp [is_subnormal, hf]
    have hnorm : v.is_normal = false := by simp [is_normal, hf]
    cases hs : v.is_signaling <;> cases hm : v.is_sign_minus <;>
      simp [«class», is_quiet, hs, hn, hi, hf, hz, hsub, hnorm, hm]

/-- C9: every branch of `quantum` masks away bit 31, so the result of
`quantum` never has the sign bit set, NaN inputs included. -/
theorem quantum_sign_bit_clear (v : d32) : v.quantum.is_sign_minus = false := by
  unfold d32.quantum
  repeat' split
  all_goals simp only [d32.is_sign_minus]
  · rw [land_shift v.bits 0x7e07ffff 0x80000000 0 (by decide)]; simp
  · rw [land_shift v.bits 0x7c07ffff 0x80000000 0 (by decide)]; simp
  · decide
  · rw [land_shift v.bits 0x7f800001 0x80000000 0 (by decide)]; simp
  · rw [land_shift v.bits 0x7fe00001 0x80000000 0 (by decide)]; simp

/-- C10: `quantum` is idempotent — applying it twice gives a pattern
bit-identical to applying it once, for every input pattern. -/
theorem quantum_idempotent (v : d32) : v.quantum.quantum = v.quantum := by
  by_cases hs : v.is_signaling = true
  · have hq : v.quantum = ⟨v.bits &&& 0x7e07ffff⟩ := by simp [d32.quantum, hs]
    have hs' : (⟨v.bits &&& 0x7e07ffff⟩ : d32).is_signaling = true := by
      simp only [d32.is_signaling] at hs ⊢
      rw [land_shift v.bits 0x7e07ffff 0x7e000000 0x7e000000 (by decide)]
      exact hs
    rw [hq]
    simp [d32.quantum, hs',
          land_shift v.bits 0x7e07ffff 0x7e07ffff 0x7e07ffff (by decide)]
  · have hsf : v.is_signaling = false := by simpa using hs
    by_cases hn : v.is_nan = true
    · have hq : v.quantum = ⟨v.bits &&& 0x7c07ffff⟩ := by
        simp [d32.quantum, hsf, hn]
      have hnv : v.bits &&& 0x7c000000 = 0x7c000000 := by
        simpa [d32.is_nan] using hn
      have hs' : (⟨v.bits &&& 0x7c07ffff⟩ : d32).is_signaling = false := by
        simp only [d32.is_signaling]
        rw [land_shift v.bits 0x7c07ffff 0x7e000000 0x7c000000 (by decide), hnv]
        decide
      have hn' : (⟨v.bits &&& 0x7c07ffff⟩ : d32).is_nan = true := by
        simp only [d32.is_nan]
        rw [land_shift v.bits 0x7c07ffff 0x7c000000 0x7c000000 (by decide), hnv]
        decide
      rw [hq]
      simp [d32.quantum, hs', hn',
            land_shift v.bits 0x7c07ffff 0x7c07ffff 0x7c07ffff (by decide)]
    · have hnf : v.is_nan = false := by simpa using hn
      by_cases hi : v.is_infinite = true
      · have hq : v.quantum = ⟨0x78000000⟩ := by
          simp [d32.quantum, hsf, hnf, hi]
        rw [hq]
        decide
      · have hif : v.is_infinite = false := by simpa using hi
        have hfin : v.is_finite = true := by simp [d32.is_finite, hif, hnf]
        have hnraw : (v.bits &&& 0x7c000000 == 0x7c000000) = false := by
          simpa [d32.is_nan] using hnf
        have hiraw : (v.bits &&& 0x78000000 == 0x78000000) = false := by
          simp only [d32.is_infinite, hnf, Bool.not_false, Bool.true_and] at hif
          exact hif
        by_cases hf1 : v.exponent_form_one = true
        · have hq : v.quantum = ⟨v.bits &&& 0x7f800001⟩ := by
            simp [d32.quantum, hsf, hnf, hif, hf1]
          have hraw60 : (v.bits &&& 0x60000000 == 0x60000000) = false := by
            simp only [d32.exponent_form_one, hfin, Bool.true_and] at hf1
            simpa using hf1
          have hn' : (⟨v.bits &&& 0x7f800001⟩ : d32).is_nan = false := by
            simp only [d32.is_nan]
            rw [land_shift v.bits 0x7f800001 0x7c000000 0x7c000000 (by decide)]
            exact hnraw
          have hs' : (⟨v.bits &&& 0x7f800001⟩ : d32).is_signaling = false :=
            not_signaling_of_not_nan _ hn'
          have hi' : (⟨v.bits &&& 0x7f800001⟩ : d32).is_infinite = false := by
            simp only [d32.is_infinite, hn', Bool.not_false, Bool.true_and]
            rw [land_shift v.bits 0x7f800001 0x78000000 0x78000000 (by decide)]
            exact hiraw
          have hfin' : (⟨v.bits &&& 0x7f800001⟩ : d32).is_finite = true := by
            simp [d32.is_finite, hn', hi']
          have hf1' : (⟨v.bits &&& 0x7f800001⟩ : d32).exponent_form_one = true := by
            simp only [d32.exponent_form_one, hfin', Bool.true_and]
            rw [land_shift v.bits 0x7f800001 0x60000000 0x60000000 (by decide)]
            simpa using hraw60
          rw [hq]
          simp [d32.quantum, hs', hn', hi', hf1',
                land_shift v.bits 0x7f800001 0x7f800001 0x7f800001 (by decide)]
        · have hf1f : v.exponent_form_one = false := by simpa using hf1
          have hq : v.quantum = ⟨v.bits &&& 0x7fe00001⟩ := by
            simp [d32.quantum, hsf, hnf, hif, hf1f]
          have hraw60 : (v.bits &&& 0x60000000 == 0x60000000) = true := by
            simp only [d32.exponent_form_one, hfin, Bool.true_and] at hf1f
            simpa using hf1f
          have hn' : (⟨v.bits &&& 0x7fe00001⟩ : d32).is_nan = false := by
            simp only [d32.is_nan]
            rw [land_shift v.bits 0x7fe00001 0x7c000000 0x7c000000 (by decide)]
            exact hnraw
          have hs' : (⟨v.bits &&& 0x7fe00001⟩ : d32).is_signaling = false :=
            not_signaling_of_not_nan _ hn'
          have hi' : (⟨v.bits &&& 0x7fe00001⟩ : d32).is_infinite = false := by
            simp only [d32.is_infinite, hn', Bool.not_false, Bool.true_and]
            rw [land_shift v.bits 0x7fe00001 0x78000000 0x78000000 (by decide)]
            exact hiraw
          have hfin' : (⟨v.bits &&& 0x7fe00001⟩ : d32).is_finite = true := by
            simp [d32.is_finite, hn', hi']
          have hf1' : (⟨v.bits &&& 0x7fe00001⟩ : d32).exponent_form_one = false := by
            simp only [d32.exponent_form_one, hfin', Bool.true_and]
            rw [land_shift v.bits 0x7fe00001 0x60000000 0x60000000 (by decide)]
            simpa using hraw60
          rw [hq]
          simp [d32.quantum, hs', hn', hi', hf1',
                land_shift v.bits 0x7fe00001 0x7fe00001 0x7fe00001 (by decide)]

end Dec754
